import Mathlib

/-!
Verification development for the webtrafficgenerator repository
(src/enhanced_web_traffic_simulator.py, src/websitetraffic.py,
src/browse_sim.py).

Shallow embedding conventions:
* Wall-clock quantities (elapsed time, sleep durations, jitter intervals)
  are modelled as rationals.
* A transport call either yields a response carrying an HTTP status code,
  or raises (`TransportResult.exception`), mirroring the
  `requests.exceptions.RequestException` handler in `make_request`.
* The mutable `session_stats` dictionary of `AdvancedWebTrafficSimulator`
  is modelled as the record `SessionStats`, with functions returning the
  updated record.
* The per-window thread pool is modelled as a step relation on a pool
  state, with the `max_workers` bound as the guard on starting a session.
-/

namespace WebTraffic

/-! ## Definitions -/

/-- The `session_stats` dictionary of `AdvancedWebTrafficSimulator`
(enhanced_web_traffic_simulator.py, lines 163-170): five integer
counters (the `start_time` entry is a clock value, kept out of the
counter record). -/
structure SessionStats where
  total_requests : Nat
  successful_requests : Nat
  failed_requests : Nat
  security_events : Nat
  compromise_activities : Nat
deriving Repr, DecidableEq

/-- All counters start at zero. -/
def zeroStats : SessionStats := ⟨0, 0, 0, 0, 0⟩

/-- Result of one call through the transport (`self.session.request`):
either a response with a status code, or a raised
`requests.exceptions.RequestException`. -/
inductive TransportResult where
  | response (status_code : Nat)
  | exception
deriving Repr, DecidableEq

/-- A response object as far as the callers inspect it: its status code.
In Python, `bool(response)` is `response.ok`, i.e. `status_code < 400`. -/
structure HttpResponse where
  status_code : Nat
deriving Repr, DecidableEq

/-- Python truthiness of the value returned by `make_request`:
`None` is falsy, and a `requests` response object is truthy exactly when
its status code is below 400. -/
def respTruthy : Option HttpResponse → Bool
  | none => false
  | some r => decide (r.status_code < 400)

/-- The method `AdvancedWebTrafficSimulator.make_request`
(enhanced_web_traffic_simulator.py, lines 463-519), restricted to its
effect on `session_stats` and its return value.  On a response:
`total_requests += 1`, then `successful_requests += 1` when
`status_code < 400` else `failed_requests += 1`, then
`security_events += 1` when the simulation type is `"malicious"`.
On a `RequestException`: `failed_requests += 1` only, and `None` is
returned. -/
def make_request (s : SessionStats) (malicious : Bool) (r : TransportResult) :
    SessionStats × Option HttpResponse :=
  match r with
  | .response code =>
    let s1 : SessionStats := { s with total_requests := s.total_requests + 1 }
    let s2 : SessionStats :=
      if code < 400 then
        { s1 with successful_requests := s1.successful_requests + 1 }
      else
        { s1 with failed_requests := s1.failed_requests + 1 }
    let s3 : SessionStats :=
      if malicious then { s2 with security_events := s2.security_events + 1 } else s2
    (s3, some ⟨code⟩)
  | .exception => ({ s with failed_requests := s.failed_requests + 1 }, none)

/-- A whole run's worth of dispatched requests folded over the stats,
starting from the zero counters (non-malicious simulation type; the
`security_events` counter is irrelevant to the totals invariant). -/
def run_requests (rs : List TransportResult) : SessionStats :=
  rs.foldl (fun s r => (make_request s false r).1) zeroStats

/-- Number of dispatched calls on which the transport raised (the
`except requests.exceptions.RequestException` arm of `make_request`). -/
def count_exceptions : List TransportResult → Nat
  | [] => 0
  | .response _ :: rs => count_exceptions rs
  | .exception :: rs => count_exceptions rs + 1

/-- End-of-window pacing of the scheduling loop
(enhanced_web_traffic_simulator.py lines 724-727, and identically
websitetraffic.py lines 295-298):
`elapsed = time.time() - minute_start; if elapsed < 60: time.sleep(60 - elapsed)`.
The value returned is the duration passed to `time.sleep`, with `0`
meaning the branch was not taken and the loop proceeds immediately. -/
def window_sleep (elapsed : ℚ) : ℚ :=
  if elapsed < 60 then 60 - elapsed else 0

/-- Python's `random.uniform(a, b)`, modelled by its defining affine form
`a + (b - a) * u` for a draw `u` of the underlying unit-interval
generator. -/
def uniform_draw (a b u : ℚ) : ℚ := a + (b - a) * u

/-- The function `jitter` (browse_sim.py lines 92-94):
`max(0.1, random.uniform(base * (1 - variance), base * (1 + variance)))`. -/
def jitter (base variance u : ℚ) : ℚ :=
  max (1/10) (uniform_draw (base * (1 - variance)) (base * (1 + variance)) u)

/-- The three behaviour classes of the window planner
(generate_advanced_traffic builds `("normal", site)`,
`("compromised", site)` and `("malicious", None)` items). -/
inductive BClass where
  | normal
  | compromised
  | malicious
deriving Repr, DecidableEq

/-- Source line `normal_requests = int(requests_per_minute * 0.8)`
(enhanced_web_traffic_simulator.py line 675); Python `int` truncation of
the nonnegative product is the floor. -/
def normal_requests (rpm : Nat) : Nat := (Int.floor ((rpm : ℚ) * (8/10))).toNat

/-- Source line `compromised_requests = int(requests_per_minute * 0.15)`
(line 676). -/
def compromised_requests (rpm : Nat) : Nat := (Int.floor ((rpm : ℚ) * (15/100))).toNat

/-- Source line `malicious_requests = int(requests_per_minute * 0.05)`
(line 677). -/
def malicious_requests (rpm : Nat) : Nat := (Int.floor ((rpm : ℚ) * (5/100))).toNat

/-- The `all_requests` batch built for one window
(enhanced_web_traffic_simulator.py lines 679-695), by behaviour class:
`normal_requests` normal items always; `compromised_requests`
compromised items only when `config["simulate_compromised_host"]`;
`malicious_requests` malicious items only when
`config["security_simulation_enabled"]`.  The randomly chosen websites
attached to the items do not affect class counts and are abstracted
away; the subsequent `random.shuffle` is modelled by quantifying over
permutations of this list. -/
def all_requests (rpm : Nat)
    (simulate_compromised_host security_simulation_enabled : Bool) :
    List BClass :=
  List.replicate (normal_requests rpm) BClass.normal
    ++ (if simulate_compromised_host then
          List.replicate (compromised_requests rpm) BClass.compromised
        else [])
    ++ (if security_simulation_enabled then
          List.replicate (malicious_requests rpm) BClass.malicious
        else [])

/-- A per-class mix: fraction and enable flag for each behaviour class. -/
structure MixConfig where
  frac : BClass → ℚ
  enabled : BClass → Bool

/-- Modelled from the spec: `BehaviorMixPlanner.plan` (spec §4.1), the
spec's generalisation over arbitrary mix fractions of the hard-coded
0.8/0.15/0.05 split of `generate_advanced_traffic`.  For each enabled
class, count = floor(windowRequestTarget × fraction); a disabled class
gets zero regardless of its fraction. -/
def planCount (rpm : Nat) (cfg : MixConfig) (c : BClass) : Nat :=
  if cfg.enabled c then (Int.floor ((rpm : ℚ) * cfg.frac c)).toNat else 0

/-- The source's concrete mix: fractions 0.8 / 0.15 / 0.05, the normal
class always enabled, the other two gated by the two config flags. -/
def codeMix (simulate_compromised_host security_simulation_enabled : Bool) :
    MixConfig :=
  ⟨fun c =>
      match c with
      | .normal => 8/10
      | .compromised => 15/100
      | .malicious => 5/100,
   fun c =>
      match c with
      | .normal => true
      | .compromised => simulate_compromised_host
      | .malicious => security_simulation_enabled⟩

/-- State of the per-window worker pool
(`ThreadPoolExecutor(max_workers=config["max_workers"])`,
enhanced_web_traffic_simulator.py lines 700-722 and websitetraffic.py
lines 281-293): how many submitted session items have not yet started,
and how many sessions are currently executing. -/
structure PoolState where
  pending : Nat
  running : Nat
deriving Repr, DecidableEq

/-- One scheduling step of the bounded executor the window batch is
submitted to: a queued item starts only while fewer than `limit`
sessions are executing (the `max_workers` bound), and a running session
may complete at any time. -/
inductive PoolStep (limit : Nat) : PoolState → PoolState → Prop
  | start : ∀ p r, 0 < p → r < limit → PoolStep limit ⟨p, r⟩ ⟨p - 1, r + 1⟩
  | complete : ∀ p r, 0 < r → PoolStep limit ⟨p, r⟩ ⟨p, r - 1⟩

/-- Pool states reachable from a freshly submitted batch of any size
(no session running yet). -/
inductive PoolReachable (limit : Nat) : PoolState → Prop
  | batch : ∀ n, PoolReachable limit ⟨n, 0⟩
  | step : ∀ s t, PoolReachable limit s → PoolStep limit s t →
      PoolReachable limit t

/-- The interaction kinds drawn inside the session loop
(enhanced_web_traffic_simulator.py lines 596-599).  Only the first three
have a branch issuing a secondary request; the other four fall through
the `if`/`elif` chain without touching the transport. -/
inductive InteractionKind where
  | subpage
  | search
  | form_submit
  | image_load
  | css_load
  | js_load
  | ajax_request
deriving Repr, DecidableEq

/-- Number of secondary transport requests one interaction issues
(lines 601-624): one for subpage/search/form_submit, none otherwise. -/
def interaction_requests (k : InteractionKind) : Nat :=
  match k with
  | .subpage => 1
  | .search => 1
  | .form_submit => 1
  | .image_load => 0
  | .css_load => 0
  | .js_load => 0
  | .ajax_request => 0

/-- Observable outcome of one browsing session.  The source's
`simulate_human_browsing_session` returns no value; `secondary_requests`
counts the transport requests issued after the Navigate step, and
`success` records whether the session passed the Navigate gate
(`if not response: return`, lines 584-586) — a gated session has already
had its Navigate counted as failed by `make_request`.  (The explicit
success flag is the spec's SessionOutcome vocabulary, §3.) -/
structure SessionOutcome where
  secondary_requests : Nat
  success : Bool
deriving Repr, DecidableEq

/-- The method `simulate_human_browsing_session`
(enhanced_web_traffic_simulator.py lines 580-636), parameterised by the
Navigate result returned by `make_request` (`none` on a transport
exception) and by the randomly drawn interaction plan.  The gate
`if not response: return` fires on `None` and on falsy (status ≥ 400)
responses alike; only a session passing the gate runs its interactions.
The same gate appears in websitetraffic.py lines 238-242. -/
def simulate_human_browsing_session (nav : Option HttpResponse)
    (interactions : List InteractionKind) : SessionOutcome :=
  if respTruthy nav then
    ⟨(interactions.map interaction_requests).sum, true⟩
  else
    ⟨0, false⟩

/-- The event kinds written through the logging sinks
(SecurityEventLogger): traffic lines, security events,
compromise-activity records, DNS records, and the final statistics
summary written by `log_statistics`. -/
inductive EventKind where
  | traffic
  | security
  | compromise_activity
  | dns
  | summary
deriving Repr, DecidableEq

/-- The `c2_communication` arm of `simulate_compromised_behavior`
(enhanced_web_traffic_simulator.py lines 521-548): a C2 domain, method
and beacon payload are drawn and the URL
`http://<domain>/api/client` is formed, then exactly one
compromise-activity record is logged via `log_compromise_activity` and
`compromise_activities` is incremented — and, per the source comment
"Don't actually make the request to avoid real C2 communication", no
transport call is issued.  Result: updated stats, emitted events, and
the list of URLs actually requested through the transport (empty). -/
def simulate_c2_communication (c2_domain : String) (s : SessionStats) :
    SessionStats × List EventKind × List String :=
  ({ s with compromise_activities := s.compromise_activities + 1 },
   [EventKind.compromise_activity],
   [])

/-- How `generate_advanced_traffic` terminates: the scheduling loop
reaching the configured end time, a `KeyboardInterrupt` (cancellation),
or any other fatal exception (lines 736-740). -/
inductive RunTermination where
  | completed
  | keyboard_interrupt
  | fatal_error
deriving Repr, DecidableEq

/-- The method `log_final_statistics`
(enhanced_web_traffic_simulator.py lines 745-762) writes exactly one
statistics summary record via `self.logger.log_statistics` (line 761),
followed by one "Session completed" line on the traffic logger
(line 762). -/
def log_final_statistics_events : List EventKind :=
  [EventKind.summary, EventKind.traffic]

/-- The event stream of one `generate_advanced_traffic` run
(lines 658-743): the loop body's events, then — per the
`try`/`except KeyboardInterrupt`/`except Exception`/`finally`
structure — an interrupt or error log line on the abnormal paths, and
in every case the `finally` clause runs `log_final_statistics` once. -/
def generate_advanced_traffic_events (body : List EventKind)
    (t : RunTermination) : List EventKind :=
  match t with
  | .completed => body ++ log_final_statistics_events
  | .keyboard_interrupt =>
      body ++ [EventKind.traffic] ++ log_final_statistics_events
  | .fatal_error =>
      body ++ [EventKind.traffic] ++ log_final_statistics_events

/-! ## Helper lemmas -/

/-- Effect of one `make_request` call on the three request counters:
exactly one of success/failure is bumped, and the total is bumped exactly
when the transport produced a response. -/
theorem make_request_counts (s : SessionStats) (r : TransportResult) :
    (make_request s false r).1.successful_requests
        + (make_request s false r).1.failed_requests
        = s.successful_requests + s.failed_requests + 1
      ∧ (make_request s false r).1.total_requests
        = s.total_requests + (if r = TransportResult.exception then 0 else 1) := by
  cases r with
  | response code => by_cases hc : code < 400 <;> simp [make_request, hc] <;> omega
  | exception => simp [make_request]; omega

/-- Helper: the run fold from an arbitrary starting record. -/
theorem run_fold_counts (rs : List TransportResult) (s : SessionStats) :
    (rs.foldl (fun s r => (make_request s false r).1) s).successful_requests
        + (rs.foldl (fun s r => (make_request s false r).1) s).failed_requests
        = s.successful_requests + s.failed_requests + rs.length
      ∧ (rs.foldl (fun s r => (make_request s false r).1) s).total_requests
          + count_exceptions rs
        = s.total_requests + rs.length := by
  induction rs generalizing s with
  | nil => simp [count_exceptions]
  | cons r rs ih =>
    rcases ih ((make_request s false r).1) with ⟨h1, h2⟩
    rcases make_request_counts s r with ⟨hs1, hs2⟩
    cases r with
    | response code =>
      simp only [List.foldl_cons, List.length_cons, count_exceptions] at *
      constructor
      · omega
      · simp only [reduceCtorEq, if_false] at hs2; omega
    | exception =>
      simp only [List.foldl_cons, List.length_cons, count_exceptions] at *
      constructor
      · omega
      · simp only [if_pos] at hs2; omega

/-- The per-class count of the window batch built by the source equals
the spec planner instantiated at the source's mix. -/
theorem all_requests_count (rpm : Nat) (sc se : Bool) (c : BClass) :
    (all_requests rpm sc se).count c = planCount rpm (codeMix sc se) c := by
  cases c <;> cases sc <;> cases se <;>
    simp [all_requests, planCount, codeMix, List.count_append,
      List.count_replicate, normal_requests, compromised_requests,
      malicious_requests]

/-- An enabled class's count, read in ℚ, is at most `rpm × fraction`. -/
theorem planCount_le (rpm : Nat) (cfg : MixConfig) (c : BClass)
    (h : 0 ≤ cfg.frac c) :
    ((planCount rpm cfg c : Nat) : ℚ) ≤ (rpm : ℚ) * cfg.frac c := by
  have hq : (0 : ℚ) ≤ (rpm : ℚ) * cfg.frac c :=
    mul_nonneg (Nat.cast_nonneg rpm) h
  unfold planCount
  by_cases he : cfg.enabled c
  · simp only [he, if_true]
    have hfl : (0 : ℤ) ≤ Int.floor ((rpm : ℚ) * cfg.frac c) :=
      Int.floor_nonneg.mpr hq
    calc ((Int.floor ((rpm : ℚ) * cfg.frac c)).toNat : ℚ)
        = ((Int.floor ((rpm : ℚ) * cfg.frac c) : ℤ) : ℚ) := by
          exact_mod_cast congrArg (fun z : ℤ => (z : ℚ))
            (Int.toNat_of_nonneg hfl)
      _ ≤ (rpm : ℚ) * cfg.frac c := Int.floor_le _
  · simpa [he] using hq

/-! ## Claim theorems -/

/-- C1: in every window of the scheduling loop, if the elapsed time is
below the nominal 60-unit window length the scheduler sleeps exactly the
remainder `60 - elapsed`; if elapsed is 60 or more it sleeps 0, i.e.
proceeds immediately.  Consequently (third conjunct) the next window
starts exactly `max 60 elapsed` after the window start. -/
theorem window_sleep_remainder (e : ℚ) :
    (e < 60 → window_sleep e = 60 - e)
    ∧ (60 ≤ e → window_sleep e = 0)
    ∧ (0 ≤ e → e + window_sleep e = max 60 e) := by
  refine ⟨fun h => by simp [window_sleep, h],
          fun h => by simp [window_sleep, not_lt.mpr h], fun _ => ?_⟩
  by_cases hc : e < 60
  · rw [window_sleep, if_pos hc, max_eq_left (le_of_lt hc)]; ring
  · rw [window_sleep, if_neg hc, max_eq_right (not_lt.mp hc), add_zero]

theorem window_sleep_remainder_witness :
    window_sleep 45 = 60 - 45 ∧ window_sleep 72 = 0
      ∧ (45 : ℚ) + window_sleep 45 = max 60 45 :=
  ⟨(window_sleep_remainder 45).1 (by norm_num),
   (window_sleep_remainder 72).2.1 (by norm_num),
   (window_sleep_remainder 45).2.2 (by norm_num)⟩

/-- C2: each enabled class receives exactly
`floor(windowRequestTarget × fraction)` (no redistribution of the
truncation remainder), and for nonnegative fractions summing to at most
1 the per-class counts sum to at most `requestsPerMinute`. -/
theorem plan_counts_floor_and_bounded (rpm : Nat) (cfg : MixConfig)
    (hnn : ∀ c, 0 ≤ cfg.frac c)
    (hsum : cfg.frac BClass.normal + cfg.frac BClass.compromised
              + cfg.frac BClass.malicious ≤ 1) :
    (∀ c, cfg.enabled c = true →
        planCount rpm cfg c = (Int.floor ((rpm : ℚ) * cfg.frac c)).toNat)
    ∧ planCount rpm cfg BClass.normal + planCount rpm cfg BClass.compromised
        + planCount rpm cfg BClass.malicious ≤ rpm := by
  constructor
  · intro c hc; simp [planCount, hc]
  · have h1 := planCount_le rpm cfg BClass.normal (hnn _)
    have h2 := planCount_le rpm cfg BClass.compromised (hnn _)
    have h3 := planCount_le rpm cfg BClass.malicious (hnn _)
    have hq : ((planCount rpm cfg BClass.normal
          + planCount rpm cfg BClass.compromised
          + planCount rpm cfg BClass.malicious : Nat) : ℚ) ≤ (rpm : ℚ) := by
      push_cast
      calc ((planCount rpm cfg BClass.normal : Nat) : ℚ)
            + ((planCount rpm cfg BClass.compromised : Nat) : ℚ)
            + ((planCount rpm cfg BClass.malicious : Nat) : ℚ)
          ≤ (rpm : ℚ) * cfg.frac BClass.normal
            + (rpm : ℚ) * cfg.frac BClass.compromised
            + (rpm : ℚ) * cfg.frac BClass.malicious := by
            gcongr
        _ = (rpm : ℚ) * (cfg.frac BClass.normal + cfg.frac BClass.compromised
              + cfg.frac BClass.malicious) := by ring
        _ ≤ (rpm : ℚ) * 1 :=
            mul_le_mul_of_nonneg_left hsum (Nat.cast_nonneg rpm)
        _ = (rpm : ℚ) := mul_one _
    exact_mod_cast hq

theorem plan_counts_floor_and_bounded_witness :
    planCount 10 (codeMix true true) BClass.normal
        + planCount 10 (codeMix true true) BClass.compromised
        + planCount 10 (codeMix true true) BClass.malicious ≤ 10
    ∧ planCount 10 (codeMix true true) BClass.normal
        = (Int.floor ((10 : ℚ) * (codeMix true true).frac BClass.normal)).toNat :=
  ⟨(plan_counts_floor_and_bounded 10 (codeMix true true)
      (by intro c; cases c <;> norm_num [codeMix])
      (by norm_num [codeMix])).2,
   (plan_counts_floor_and_bounded 10 (codeMix true true)
      (by intro c; cases c <;> norm_num [codeMix])
      (by norm_num [codeMix])).1 BClass.normal rfl⟩

/-- C3: in every reachable pool state at most `limit` sessions execute
simultaneously, and from a saturated state (running = limit) the only
possible step is a completion — the pending queue cannot shrink, so
excess items wait until a running session finishes. -/
theorem worker_pool_bounded (limit : Nat) (s : PoolState)
    (h : PoolReachable limit s) :
    s.running ≤ limit
    ∧ (∀ t, s.running = limit → PoolStep limit s t →
        t.pending = s.pending ∧ t.running + 1 = s.running) := by
  constructor
  · induction h with
    | batch n => exact Nat.zero_le _
    | step s t hs hst ih =>
      cases hst with
      | start p r hp hr => exact hr
      | complete p r hr => exact Nat.le_trans (Nat.sub_le r 1) ih
  · intro t hlim hst
    cases hst with
    | start p r hp hr =>
      exact absurd hlim (Nat.ne_of_lt hr)
    | complete p r hr =>
      refine ⟨rfl, ?_⟩
      show r - 1 + 1 = r
      omega

theorem worker_pool_bounded_witness :
    (⟨5, 0⟩ : PoolState).running ≤ 3 :=
  (worker_pool_bounded 3 ⟨5, 0⟩ (PoolReachable.batch 5)).1

/-- C4: when the compromised (resp. malicious) class is disabled, the
window batch — in any shuffled order — contains zero items of that
class; and in the generalised planner a disabled class's count is zero
regardless of its configured fraction. -/
theorem disabled_class_zero_items (rpm : Nat) (sc se : Bool)
    (l : List BClass) (h : l.Perm (all_requests rpm sc se)) :
    (sc = false → l.count BClass.compromised = 0)
    ∧ (se = false → l.count BClass.malicious = 0)
    ∧ (∀ (cfg : MixConfig) (c : BClass), cfg.enabled c = false →
        planCount rpm cfg c = 0) := by
  refine ⟨?_, ?_, ?_⟩
  · intro hsc
    subst hsc
    rw [h.count_eq]
    cases se <;>
      simp [all_requests, List.count_append, List.count_replicate]
  · intro hse
    subst hse
    rw [h.count_eq]
    cases sc <;>
      simp [all_requests, List.count_append, List.count_replicate]
  · intro cfg c hc
    simp [planCount, hc]

theorem disabled_class_zero_items_witness :
    (all_requests 20 false false).count BClass.compromised = 0
    ∧ (all_requests 20 false false).count BClass.malicious = 0 :=
  ⟨(disabled_class_zero_items 20 false false _ (List.Perm.refl _)).1 rfl,
   (disabled_class_zero_items 20 false false _ (List.Perm.refl _)).2.1 rfl⟩

/-- C5: a session whose Navigate step fails at the transport level
(`make_request` returned `None`) performs zero Interact sub-actions —
no secondary request is issued — and terminates with success = false. -/
theorem navigate_failure_ends_session (nav : Option HttpResponse)
    (interactions : List InteractionKind) (h : nav = none) :
    (simulate_human_browsing_session nav interactions).secondary_requests = 0
    ∧ (simulate_human_browsing_session nav interactions).success = false := by
  subst h
  simp [simulate_human_browsing_session, respTruthy]

theorem navigate_failure_ends_session_witness :
    (simulate_human_browsing_session none
        [InteractionKind.subpage, InteractionKind.search]).secondary_requests = 0
    ∧ (simulate_human_browsing_session none
        [InteractionKind.subpage, InteractionKind.search]).success = false :=
  navigate_failure_ends_session none
    [InteractionKind.subpage, InteractionKind.search] rfl

/-- C6: the C2-communication compromise branch issues no transport call
to the C2 target, emits exactly one compromise-activity event, increments
the compromise-activities counter, and leaves every other counter
unchanged. -/
theorem c2_dry_run_no_transport_call (dom : String) (s : SessionStats) :
    (simulate_c2_communication dom s).2.2 = []
    ∧ (simulate_c2_communication dom s).2.1 = [EventKind.compromise_activity]
    ∧ (simulate_c2_communication dom s).1.compromise_activities
        = s.compromise_activities + 1
    ∧ (simulate_c2_communication dom s).1.total_requests = s.total_requests
    ∧ (simulate_c2_communication dom s).1.successful_requests
        = s.successful_requests
    ∧ (simulate_c2_communication dom s).1.failed_requests = s.failed_requests
    ∧ (simulate_c2_communication dom s).1.security_events
        = s.security_events := by
  simp [simulate_c2_communication]

/-- C7: whether the run completes, is interrupted, or aborts on a fatal
error, as long as the window bodies themselves emit no summary record,
the final statistics summary appears exactly once in the run's event
stream, and only after all of the window bodies' events: the stream's
first `body.length` events are exactly the body, and the single summary
lies in the remainder.  (The summary is not the very last event: the
source follows it with a "Session completed" traffic line.) -/
theorem final_summary_emitted_once (body : List EventKind)
    (t : RunTermination) (h : body.count EventKind.summary = 0) :
    (generate_advanced_traffic_events body t).count EventKind.summary = 1
    ∧ (generate_advanced_traffic_events body t).take body.length = body
    ∧ ((generate_advanced_traffic_events body t).drop body.length).count
        EventKind.summary = 1 := by
  cases t <;>
    refine ⟨?_, ?_, ?_⟩ <;>
    simp [generate_advanced_traffic_events, log_final_statistics_events,
      List.count_append, h, List.append_assoc, List.take_left,
      List.drop_left]

theorem final_summary_emitted_once_witness :
    (generate_advanced_traffic_events [EventKind.traffic, EventKind.security]
        RunTermination.keyboard_interrupt).count EventKind.summary = 1
    ∧ (generate_advanced_traffic_events [EventKind.traffic, EventKind.security]
        RunTermination.keyboard_interrupt).take 2
        = [EventKind.traffic, EventKind.security]
    ∧ ((generate_advanced_traffic_events [EventKind.traffic, EventKind.security]
        RunTermination.keyboard_interrupt).drop 2).count EventKind.summary = 1 :=
  final_summary_emitted_once [EventKind.traffic, EventKind.security]
    RunTermination.keyboard_interrupt (by decide)

/-- C8 counterexample: a run of one dispatched request on which the
transport raises leaves `successful_requests + failed_requests = 1` but
`total_requests = 0`, so the claimed invariant
`successful + failed = total` fails on the code. -/
theorem stats_sum_counterexample :
    ¬ ((run_requests [TransportResult.exception]).successful_requests
         + (run_requests [TransportResult.exception]).failed_requests
       = (run_requests [TransportResult.exception]).total_requests) := by
  decide

/-- C8 (amended): for every run, `successful_requests + failed_requests`
equals the number of dispatched requests, and exceeds `total_requests` by
exactly the number of transport-level exceptions (so the two coincide
precisely when no transport call raised). -/
theorem stats_sum_amended (rs : List TransportResult) :
    (run_requests rs).successful_requests + (run_requests rs).failed_requests
        = rs.length
      ∧ (run_requests rs).total_requests + count_exceptions rs = rs.length := by
  have h := run_fold_counts rs zeroStats
  simpa [run_requests, zeroStats] using h

/-- C9: on a transport response, `make_request` increments
`total_requests` and exactly one of `successful_requests`
(status < 400) or `failed_requests` (status ≥ 400); on a transport
exception it increments `failed_requests` only, leaving `total_requests`
and `successful_requests` unchanged. -/
theorem make_request_counter_updates (s : SessionStats) (m : Bool) (code : Nat) :
    (make_request s m (.response code)).1.total_requests = s.total_requests + 1
    ∧ (make_request s m (.response code)).1.successful_requests
        = s.successful_requests + (if code < 400 then 1 else 0)
    ∧ (make_request s m (.response code)).1.failed_requests
        = s.failed_requests + (if code < 400 then 0 else 1)
    ∧ (make_request s m .exception).1.failed_requests = s.failed_requests + 1
    ∧ (make_request s m .exception).1.total_requests = s.total_requests
    ∧ (make_request s m .exception).1.successful_requests = s.successful_requests := by
  by_cases hc : code < 400 <;> cases m <;> simp [make_request, hc]

/-- C10: the jitter delay is clamped below at 0.1 for every base,
variance and random draw, so no computed sleep interval is ever zero or
negative, even for zero or negative base. -/
theorem jitter_lower_bound (base variance u : ℚ) :
    1/10 ≤ jitter base variance u :=
  le_max_left _ _

end WebTraffic
